import Mathlib

/-!
# Shallow embedding of the Doctor On Call Simulator

This file embeds the logical core of the repository (a small clinic
simulation) in Lean 4 and proves properties of it:

* `medications.py` — the medication catalog, the condition → correct-medication
  map, and the list of severe conditions;
* `patients.py` — the patient-generation catalogs and the `Patient` record;
* `game.py` — the `evaluate_patient` rating function and the day-progression
  state machine extracted from `main` (the pygame rendering and event plumbing
  carries no logical state beyond what is modelled here);
* `memory.py` — the `ClinicMemory` review store and its JSON persistence,
  modelled at the value level.

Randomness (`random.randint`) is modelled by an explicit parameter
`randint : Nat → Nat → Nat`; theorems that depend on its range assume
`∀ a b, a ≤ b → a ≤ randint a b ∧ randint a b ≤ b`, the documented contract
of `random.randint` on non-empty ranges.
-/

namespace DoctorOnCall

/-- `medications.py` lines 1–14: `ALL_MEDICATIONS`. -/
def ALL_MEDICATIONS : List String :=
  ["Tylenol", "Antibiotics", "Inhaler", "Tamiflu", "Beta Blocker", "IV Fluids",
   "Anxiety Sedative", "Triptan", "Eipnephrine", "Bronchodilator", "Insulin Drip",
   "Anti-inflammatory"]

/-- `medications.py` lines 17–40: `CONDITION_TO_CORRECT_MED`, a dict mapping a
condition name to the list of medications considered correct for it, embedded
as an association list (the Python dict has string keys, no duplicates). -/
def CONDITION_TO_CORRECT_MED : List (String × List String) :=
  [("Flu", ["Tamiflu"]),
   ("Migraine", ["Triptan"]),
   ("Anxiety Attack", ["Anxiety Sedative"]),
   ("Food Poisoning", ["IV Fluids"]),
   ("Broken Hand", ["Tylenol"]),
   ("Asthma Flare", ["Inhaler"]),
   ("Mild Allergic Reaction", ["Eipnephrine"]),
   ("Bacterial Infection", ["Antibiotics"]),
   ("High Blood Pressure", ["Beta Blocker"]),
   ("Bronchitis", ["Bronchodilator"]),
   ("Diabetes", ["Insulin Drip"]),
   ("COPD Flare", ["Inhaler", "Bronchodilator"]),
   ("Pneumonia", ["Antibiotics", "IV Fluids"]),
   ("UTI with Fever", ["Antibiotics", "IV Fluids"]),
   ("Osteoarthritis Flare", ["Tylenol", "Anti-inflammatory"]),
   ("Heart Failure", ["Beta Blocker"]),
   ("Sepsis", ["Antibiotics"]),
   ("Anaphylactic Shock", ["Eipnephrine", "IV Fluids"]),
   ("Ketone Acidosis", ["Insulin Drip", "IV Fluids"])]

/-- `medications.py` line 43: `SEVERE_CONDITIONS`. -/
def SEVERE_CONDITIONS : List String :=
  ["Heart Failure", "Sepsis", "Anaphylactic Shock", "Ketone Acidosis"]

/-- `patients.py` lines 14–19: `NAMES`. -/
def NAMES : List String :=
  ["John", "Lily", "Mark", "Anna", "Paul", "Sara", "David", "Emily",
   "Christopher", "Ava", "Daniel", "Sophia", "Matthew", "Chloe", "Kyle",
   "Ella", "Lucas", "Grace", "Nathan", "Zoe", "Ryan", "Mia", "Ethan",
   "Olivia", "Noah"]

/-- `patients.py` lines 22–25: `PERSONALITIES`. -/
def PERSONALITIES : List String :=
  ["Calm", "Nervous", "Scared", "Rude", "Angry", "Quiet", "Sassy",
   "Impatient", "Grateful"]

/-- `patients.py` lines 28–38: `PERSONALITY_TREATMENT_TIME`, embedded as an
association list (seconds a patient of this personality can wait). -/
def PERSONALITY_TREATMENT_TIME : List (String × Nat) :=
  [("Impatient", 20), ("Angry", 25), ("Nervous", 35), ("Scared", 30),
   ("Rude", 25), ("Quiet", 40), ("Sassy", 25), ("Calm", 45), ("Grateful", 50)]

/-- `patients.py` lines 41–47: `CONDITIONS`, the catalog the generator draws a
patient's condition from.  Note the spelling "Anaphylatic Shock" on line 45 of
the source. -/
def CONDITIONS : List String :=
  ["Flu", "Migraine", "Anxiety Attack", "Food Poisoning",
   "Broken Hand", "Asthma Flare", "Heart Failure", "Sepsis",
   "Mild Allergic Reaction", "Bacterial Infection", "High Blood Pressure",
   "Bronchitis", "Diabetes", "Anaphylatic Shock", "Ketone Acidosis",
   "COPD Flare", "Pneumonia", "UTI with Fever", "Osteoarthritis Flare"]

/-- `patients.py` class `Patient`: one record per patient.  `med_given` is
`None` until a medication button is clicked, so it is an `Option`; the other
fields mirror the attributes set in `__init__` and mutated by the game loop. -/
structure Patient where
  name : String
  condition : String
  personality : String
  is_angry : Bool
  med_given : Option String
  admitted : Bool
  treatment_time : Nat
  time_left : Nat
deriving DecidableEq

/-- `patients.py` `Patient.__init__`: a fresh patient has no medication, is not
admitted, and gets `treatment_time` (and `time_left`) from the personality
table, defaulting to 30 if the personality is unmapped. -/
def Patient.create (name condition personality : String)
    (is_angry : Bool := false) : Patient :=
  let tt := (PERSONALITY_TREATMENT_TIME.lookup personality).getD 30
  { name := name, condition := condition, personality := personality,
    is_angry := is_angry, med_given := none, admitted := false,
    treatment_time := tt, time_left := tt }

/-- Python truthiness of `patient.med_given` (a string or `None`): `None` and
the empty string are falsy, every other string is truthy. -/
def medTruthy : Option String → Bool
  | some s => !s.isEmpty
  | none => false

/-- `game.py` line 104: `correct_meds = CONDITION_TO_CORRECT_MED.get(patient.condition, [])`. -/
def correct_meds_for (condition : String) : List String :=
  (CONDITION_TO_CORRECT_MED.lookup condition).getD []

/-- `game.py` line 105: `gave_correct_med = patient.med_given in correct_meds`
(`None in list` is `False` in Python). -/
def gave_correct_med (p : Patient) : Bool :=
  match p.med_given with
  | some m => (correct_meds_for p.condition).contains m
  | none => false

/-- The closure message built in `game.py` lines 111–115. -/
def closure_reason (name : String) : String :=
  name ++ " had a severe condition.\nImproper care led to complications.\nFamily sued — Clinic Closed."

/-- The complaint message built in `game.py` line 125. -/
def complaint_reason (name : String) : String :=
  "Patient " ++ name ++ " reported poor treatment."

/-- `game.py` lines 83–128: `evaluate_patient`.  Returns `(stars, reason)`;
`randint a b` stands for `random.randint(a, b)`. -/
def evaluate_patient (randint : Nat → Nat → Nat) (patient : Patient) :
    Nat × Option String :=
  let severe := SEVERE_CONDITIONS.contains patient.condition
  if severe then
    if patient.admitted && gave_correct_med patient then
      (randint 4 5, none)
    else
      (0, some (closure_reason patient.name))
  else if gave_correct_med patient then
    (randint 4 5, none)
  else if medTruthy patient.med_given then
    (randint 1 3, some (complaint_reason patient.name))
  else
    (1, none)

/-- C1: the claim asserts every condition in `CONDITIONS` has an entry in
`CONDITION_TO_CORRECT_MED`.  It fails: `patients.py` line 45 spells the
condition "Anaphylatic Shock" while `medications.py` (both the medication map
and `SEVERE_CONDITIONS`) spells it "Anaphylactic Shock", so the generatable
spelling has no medication entry and is not severe; a patient generated with
it is evaluated as a non-severe condition with an empty correct-medication
set, e.g. giving the medically right treatment (Eipnephrine, admitted) still
yields the wrong-medication complaint branch. -/
theorem anaphylatic_shock_missing_from_med_map :
    "Anaphylatic Shock" ∈ CONDITIONS ∧
    CONDITION_TO_CORRECT_MED.lookup "Anaphylatic Shock" = none ∧
    "Anaphylatic Shock" ∉ SEVERE_CONDITIONS ∧
    "Anaphylactic Shock" ∉ CONDITIONS ∧
    evaluate_patient (fun a _ => a)
      { name := "Anna", condition := "Anaphylatic Shock", personality := "Calm",
        is_angry := false, med_given := some "Eipnephrine", admitted := true,
        treatment_time := 45, time_left := 45 }
      = (1, some "Patient Anna reported poor treatment.") := by
  refine ⟨by decide, by decide, by decide, by decide, ?_⟩
  rfl

/-- `gave_correct_med` holds exactly when the patient was given some
medication listed as correct for their condition. -/
theorem gave_correct_med_iff (p : Patient) :
    gave_correct_med p = true ↔
      ∃ m, p.med_given = some m ∧ m ∈ correct_meds_for p.condition := by
  unfold gave_correct_med
  cases h : p.med_given with
  | none => simp
  | some m =>
    simp only [Option.some.injEq]
    constructor
    · intro hc
      exact ⟨m, rfl, List.elem_iff.1 hc⟩
    · rintro ⟨m2, rfl, hmem⟩
      exact List.elem_iff.2 hmem

/-- Appending a string of positive length never yields the empty string. -/
theorem append_ne_empty_of_right (a b : String) (hb : b.length ≠ 0) :
    a ++ b ≠ "" := by
  intro h
  have hl := congrArg String.length h
  rw [String.length_append] at hl
  have h0 : String.length "" = 0 := rfl
  rw [h0] at hl
  omega

/-- The severe-condition closure message is never empty. -/
theorem closure_reason_ne_empty (name : String) : closure_reason name ≠ "" :=
  append_ne_empty_of_right _ _ (by decide)

/-- The wrong-medication complaint message is never empty. -/
theorem complaint_reason_ne_empty (name : String) : complaint_reason name ≠ "" :=
  append_ne_empty_of_right _ _ (by decide)

/-- C2: for a patient with a severe condition, `evaluate_patient` returns
4 or 5 stars and no reason when the patient is admitted and was given a
medication in the condition's correct set; in every other case it returns
exactly 0 stars with the non-empty closure message naming the patient
(`game.py` lines 104–117). -/
theorem severe_condition_evaluation (randint : Nat → Nat → Nat)
    (hr : ∀ a b, a ≤ b → a ≤ randint a b ∧ randint a b ≤ b)
    (p : Patient) (hs : p.condition ∈ SEVERE_CONDITIONS) :
    ((p.admitted = true ∧
        ∃ m, p.med_given = some m ∧ m ∈ correct_meds_for p.condition) →
      ((evaluate_patient randint p).1 = 4 ∨ (evaluate_patient randint p).1 = 5) ∧
      (evaluate_patient randint p).2 = none) ∧
    (¬ (p.admitted = true ∧
        ∃ m, p.med_given = some m ∧ m ∈ correct_meds_for p.condition) →
      (evaluate_patient randint p).1 = 0 ∧
      (evaluate_patient randint p).2 = some (closure_reason p.name) ∧
      closure_reason p.name ≠ "") := by
  have hsev : SEVERE_CONDITIONS.contains p.condition = true :=
    List.elem_eq_true_of_mem hs
  constructor
  · rintro ⟨ha, hgave⟩
    have hg : gave_correct_med p = true := (gave_correct_med_iff p).2 hgave
    have hb : (p.admitted && gave_correct_med p) = true := by rw [ha, hg]; rfl
    have he : evaluate_patient randint p = (randint 4 5, none) := by
      unfold evaluate_patient
      rw [hsev, hb]
      rfl
    obtain ⟨h4, h5⟩ := hr 4 5 (by omega)
    rw [he]
    exact ⟨by omega, rfl⟩
  · intro hnot
    have hb : (p.admitted && gave_correct_med p) = false := by
      cases hadm : p.admitted with
      | false => rfl
      | true =>
        cases hg : gave_correct_med p with
        | false => rfl
        | true => exact absurd ⟨hadm, (gave_correct_med_iff p).1 hg⟩ hnot
    have he : evaluate_patient randint p = (0, some (closure_reason p.name)) := by
      unfold evaluate_patient
      rw [hsev, hb]
      rfl
    rw [he]
    exact ⟨rfl, rfl, closure_reason_ne_empty p.name⟩

/-- Witness for `severe_condition_evaluation` at a concrete admitted Sepsis
patient treated with Antibiotics, with the randomness source pinned to the
lower bound. -/
theorem severe_condition_evaluation_witness :
    (evaluate_patient (fun a _ => a)
      { name := "Ann", condition := "Sepsis", personality := "Calm",
        is_angry := false, med_given := some "Antibiotics", admitted := true,
        treatment_time := 45, time_left := 45 }).2 = none :=
  ((severe_condition_evaluation (fun a _ => a)
      (fun a _ h => ⟨Nat.le_refl a, h⟩)
      { name := "Ann", condition := "Sepsis", personality := "Calm",
        is_angry := false, med_given := some "Antibiotics", admitted := true,
        treatment_time := 45, time_left := 45 }
      (by decide)).1 ⟨rfl, "Antibiotics", rfl, by decide⟩).2

/-- C3: for a patient with a non-severe condition, `evaluate_patient` returns
4 or 5 stars and no reason on a correct medication; 1–3 stars and the
non-empty complaint message naming the patient on a non-empty wrong
medication; and exactly 1 star with no reason when no medication was given
(`game.py` lines 119–128). -/
theorem non_severe_evaluation (randint : Nat → Nat → Nat)
    (hr : ∀ a b, a ≤ b → a ≤ randint a b ∧ randint a b ≤ b)
    (p : Patient) (hns : p.condition ∉ SEVERE_CONDITIONS) :
    ((∃ m, p.med_given = some m ∧ m ∈ correct_meds_for p.condition) →
      ((evaluate_patient randint p).1 = 4 ∨ (evaluate_patient randint p).1 = 5) ∧
      (evaluate_patient randint p).2 = none) ∧
    ((¬ ∃ m, p.med_given = some m ∧ m ∈ correct_meds_for p.condition) →
      (∃ m, p.med_given = some m ∧ m ≠ "") →
      ((evaluate_patient randint p).1 = 1 ∨ (evaluate_patient randint p).1 = 2 ∨
        (evaluate_patient randint p).1 = 3) ∧
      (evaluate_patient randint p).2 = some (complaint_reason p.name) ∧
      complaint_reason p.name ≠ "") ∧
    (p.med_given = none →
      (evaluate_patient randint p).1 = 1 ∧ (evaluate_patient randint p).2 = none) := by
  have hsev : SEVERE_CONDITIONS.contains p.condition = false := by
    cases h : SEVERE_CONDITIONS.contains p.condition with
    | false => rfl
    | true => exact absurd (List.elem_iff.1 h) hns
  refine ⟨?_, ?_, ?_⟩
  · intro hgave
    have hg : gave_correct_med p = true := (gave_correct_med_iff p).2 hgave
    have he : evaluate_patient randint p = (randint 4 5, none) := by
      unfold evaluate_patient
      rw [hsev, hg]
      rfl
    obtain ⟨h4, h5⟩ := hr 4 5 (by omega)
    rw [he]
    exact ⟨by omega, rfl⟩
  · rintro hnot ⟨m, hm, hne⟩
    have hg : gave_correct_med p = false := by
      cases h : gave_correct_med p with
      | false => rfl
      | true => exact absurd ((gave_correct_med_iff p).1 h) hnot
    have hie : m.isEmpty = false := by
      cases he : m.isEmpty with
      | false => rfl
      | true => exact absurd ((String.isEmpty_iff m).1 he) hne
    have ht : medTruthy p.med_given = true := by
      unfold medTruthy
      rw [hm]
      simp [hie]
    have he : evaluate_patient randint p = (randint 1 3, some (complaint_reason p.name)) := by
      unfold evaluate_patient
      rw [hsev, hg, ht]
      rfl
    obtain ⟨h1, h3⟩ := hr 1 3 (by omega)
    rw [he]
    exact ⟨by omega, rfl, complaint_reason_ne_empty p.name⟩
  · intro hm
    have hg : gave_correct_med p = false := by
      unfold gave_correct_med
      rw [hm]
    have ht : medTruthy p.med_given = false := by
      unfold medTruthy
      rw [hm]
    have he : evaluate_patient randint p = (1, none) := by
      unfold evaluate_patient
      rw [hsev, hg, ht]
      rfl
    rw [he]
    exact ⟨rfl, rfl⟩

/-- Witness for `non_severe_evaluation` at a concrete Flu patient who was
given no medication, with the randomness source pinned to the lower bound. -/
theorem non_severe_evaluation_witness :
    (evaluate_patient (fun a _ => a)
      { name := "John", condition := "Flu", personality := "Calm",
        is_angry := false, med_given := none, admitted := false,
        treatment_time := 45, time_left := 45 }).1 = 1 :=
  ((non_severe_evaluation (fun a _ => a)
      (fun a _ h => ⟨Nat.le_refl a, h⟩)
      { name := "John", condition := "Flu", personality := "Calm",
        is_angry := false, med_given := none, admitted := false,
        treatment_time := 45, time_left := 45 }
      (by decide)).2.2 rfl).1

/-- `game.py` lines 83–128 with the patient threaded through as explicit
state: the source body only reads `patient.condition`, `patient.med_given`,
`patient.admitted` and `patient.name` and assigns no attribute, so every
branch returns the incoming patient alongside its `(stars, reason)` pair. -/
def evaluate_patient_with_state (randint : Nat → Nat → Nat) (patient : Patient) :
    Patient × Nat × Option String :=
  let severe := SEVERE_CONDITIONS.contains patient.condition
  if severe then
    if patient.admitted && gave_correct_med patient then
      (patient, randint 4 5, none)
    else
      (patient, 0, some (closure_reason patient.name))
  else if gave_correct_med patient then
    (patient, randint 4 5, none)
  else if medTruthy patient.med_given then
    (patient, randint 1 3, some (complaint_reason patient.name))
  else
    (patient, 1, none)

/-- C9: `evaluate_patient` is observationally pure in the patient: threading
the patient through as state, every branch hands back the patient with every
field unchanged, together with exactly the `(stars, reason)` pair that
`evaluate_patient` computes. -/
theorem evaluate_patient_frame (randint : Nat → Nat → Nat) (p : Patient) :
    (evaluate_patient_with_state randint p).1 = p ∧
    (evaluate_patient_with_state randint p).2 = evaluate_patient randint p := by
  unfold evaluate_patient_with_state evaluate_patient
  dsimp only
  split_ifs <;> exact ⟨rfl, rfl⟩

/-- C10: for a non-severe condition the `admitted` flag is never consulted:
with the same randomness source, flipping `admitted` (and nothing else)
yields the identical `(stars, reason)` pair. -/
theorem non_severe_ignores_admitted (randint : Nat → Nat → Nat)
    (p : Patient) (b : Bool) (hns : p.condition ∉ SEVERE_CONDITIONS) :
    evaluate_patient randint { p with admitted := b } =
      evaluate_patient randint p := by
  obtain ⟨nm, cond, pers, ang, med, adm, tt, tl⟩ := p
  have hsev : SEVERE_CONDITIONS.contains cond = false := by
    cases h : SEVERE_CONDITIONS.contains cond with
    | false => rfl
    | true => exact absurd (List.elem_iff.1 h) hns
  unfold evaluate_patient
  rw [hsev]
  rfl

/-- Witness for `non_severe_ignores_admitted`: admitting a Flu patient given
Tylenol does not change the evaluation. -/
theorem non_severe_ignores_admitted_witness :
    evaluate_patient (fun a _ => a)
      { name := "Lily", condition := "Flu", personality := "Calm",
        is_angry := false, med_given := some "Tylenol", admitted := true,
        treatment_time := 45, time_left := 45 } =
    evaluate_patient (fun a _ => a)
      { name := "Lily", condition := "Flu", personality := "Calm",
        is_angry := false, med_given := some "Tylenol", admitted := false,
        treatment_time := 45, time_left := 45 } :=
  non_severe_ignores_admitted (fun a _ => a)
    { name := "Lily", condition := "Flu", personality := "Calm",
      is_angry := false, med_given := some "Tylenol", admitted := false,
      treatment_time := 45, time_left := 45 } true (by decide)

/-! ## The session / day-progression state machine of `game.py main`

`main` keeps `day` (global, starts at 1), `patients_treated` (per-day counter,
starts at 0) and `total_rating` (the list of all recorded star ratings).  Two
code paths record a rating: the timeout path (lines 221–252) and the
"Finish Care" path (lines 342–379).  Both then run the same end-of-patient
block: increment `patients_treated`; if it reached 5, increment `day`; if the
day now exceeds 3, compute the overall average of `total_rating` and exit in
the success or closed state, otherwise show a day summary and reset
`patients_treated` to 0.  The "Finish Care" path first calls
`evaluate_patient` and, on 0 stars, exits immediately in the catastrophic
closed state without recording anything.  Terminal states call `sys.exit`, so
no further events are processed. -/

/-- How a run is (or is not yet) over: still playing, closed by a mishandled
severe case (`game.py` lines 345–355), closed by a final average below 3
(lines 240–244 and 368–372), or successful (lines 236–239 and 364–367). -/
inductive Outcome
  | playing
  | closedCatastrophic
  | closedLowRating
  | success
deriving DecidableEq

/-- The mutable state of `main`: `day`, the per-day `patients_treated`
counter, the accumulated `total_rating` list, and whether the run has
reached a terminal screen. -/
structure Session where
  day : Nat
  patients_treated : Nat
  total_rating : List Nat
  status : Outcome
deriving DecidableEq

/-- The state `main` starts a run in: day 1, no patients treated, empty
rating history. -/
def Session.start : Session :=
  { day := 1, patients_treated := 0, total_rating := [], status := .playing }

/-- `sum(total_rating) / len(total_rating)` from `game.py` lines 234 and 362,
computed exactly in ℚ (the Python float sum of these small integers is exact,
and float rounding of the quotient cannot move it across the ≥ 3 threshold).
`mkRat` is the normalized quotient; `overall_avg_eq_div` below relates it to
the literal division. -/
def overall_avg (ratings : List Nat) : ℚ :=
  mkRat (ratings.sum : Int) ratings.length

/-- `overall_avg` agrees with the literal quotient
`(sum ratings : ℚ) / (length ratings : ℚ)`. -/
theorem overall_avg_eq_div (ratings : List Nat) :
    overall_avg ratings = (ratings.sum : ℚ) / (ratings.length : ℚ) := by
  rw [overall_avg, Rat.mkRat_eq_div, Int.cast_natCast]

/-- The end-of-patient block `game.py` duplicates on the timeout path
(lines 229–252) and the finish-care path (lines 357–379), run after a rating
has been appended to `total_rating`:
`patients_treated += 1`; on reaching 5, `day += 1`; if `day > 3` the run ends
(success iff the overall average is at least 3), otherwise the day summary is
shown and `patients_treated` resets to 0. -/
def advance_after_rating (s : Session) : Session :=
  let pt := s.patients_treated + 1
  if 5 ≤ pt then
    let d := s.day + 1
    if 3 < d then
      if 3 ≤ overall_avg s.total_rating then
        { s with day := d, patients_treated := pt, status := .success }
      else
        { s with day := d, patients_treated := pt, status := .closedLowRating }
    else
      { s with day := d, patients_treated := 0 }
  else
    { s with patients_treated := pt }

/-- The timeout path, `game.py` lines 221–252: when `time_left` hits 0 the
senior doctor steps in, exactly one 1-star rating is appended
(`total_rating.append(1)`), and the end-of-patient block runs.
`evaluate_patient` is never called on this path. -/
def timeout_step (s : Session) : Session :=
  advance_after_rating { s with total_rating := s.total_rating ++ [1] }

/-- The "Finish Care" path, `game.py` lines 342–379: evaluate the patient;
on 0 stars exit immediately in the catastrophic closed state (nothing is
recorded), otherwise append the stars and run the end-of-patient block. -/
def finish_step (randint : Nat → Nat → Nat) (p : Patient) (s : Session) :
    Session :=
  let res := evaluate_patient randint p
  if res.1 = 0 then
    { s with status := .closedCatastrophic }
  else
    advance_after_rating { s with total_rating := s.total_rating ++ [res.1] }

/-- The two ways the loop can conclude one patient: the countdown expires, or
the receptionist clicks "Finish Care" on the given patient state. -/
inductive Event
  | timeout
  | finishCare (p : Patient)

/-- One loop iteration that concludes a patient.  Terminal states call
`sys.exit` in the source, so events after termination change nothing. -/
def step (randint : Nat → Nat → Nat) (s : Session) (e : Event) : Session :=
  if s.status = .playing then
    match e with
    | .timeout => timeout_step s
    | .finishCare p => finish_step randint p s
  else
    s

/-- A whole run: fold `step` over the sequence of per-patient events,
starting from a given session state. -/
def run (randint : Nat → Nat → Nat) (s : Session) (es : List Event) : Session :=
  es.foldl (step randint) s

/-! ## `memory.py`: the `ClinicMemory` review store

`save_to_file` serializes `all_reviews` with `json.dump`; `load_from_file`
checks `os.path.exists`, then parses with `json.load` inside `try/except`.
The `json` library is external to this repository, so the file is modelled at
the value level: a file is either missing, unreadable-or-unparseable, or a
JSON array of integers (the only shape `save_to_file` ever writes, and
`json.dump`/`json.load` round-trip such arrays exactly). -/

/-- The states of the persisted-memory file that the claims range over. -/
inductive FileContent
  | missing
  | corrupt
  | intArray (l : List Int)
deriving DecidableEq

/-- `memory.py` class `ClinicMemory`: holds the list of star ratings. -/
structure ClinicMemory where
  all_reviews : List Int
deriving DecidableEq

/-- `ClinicMemory.__init__`: starts with an empty review list. -/
def ClinicMemory.start : ClinicMemory := { all_reviews := [] }

/-- `memory.py` lines 27–34: `add_review` appends one rating. -/
def ClinicMemory.add_review (mem : ClinicMemory) (stars : Int) : ClinicMemory :=
  { mem with all_reviews := mem.all_reviews ++ [stars] }

/-- `memory.py` lines 36–45: `get_average_stars` returns 0 on an empty list,
else the exact mean. -/
def ClinicMemory.get_average_stars (mem : ClinicMemory) : ℚ :=
  if mem.all_reviews.length = 0 then 0
  else (mem.all_reviews.sum : ℚ) / (mem.all_reviews.length : ℚ)

/-- `memory.py` lines 47–51: `reset_reviews` clears the list. -/
def ClinicMemory.reset_reviews (mem : ClinicMemory) : ClinicMemory :=
  { mem with all_reviews := [] }

/-- `memory.py` lines 54–63: `save_to_file` writes `all_reviews` as a JSON
array of integers (the write-error branch only prints; on success the file
holds exactly this array). -/
def ClinicMemory.save_to_file (mem : ClinicMemory) : FileContent :=
  .intArray mem.all_reviews

/-- `memory.py` lines 66–84: `load_from_file`.  A missing file resets the
reviews to `[]` and returns; an unreadable or unparseable file lands in the
`except` branch, which also resets to `[]`; a parsed integer array becomes
`all_reviews`.  Every branch returns normally — no exception escapes. -/
def ClinicMemory.load_from_file (mem : ClinicMemory) (file : FileContent) :
    ClinicMemory :=
  match file with
  | .missing => { mem with all_reviews := [] }
  | .corrupt => { mem with all_reviews := [] }
  | .intArray l => { mem with all_reviews := l }

/-- The end-of-patient block never modifies the rating history. -/
theorem advance_total_rating (s : Session) :
    (advance_after_rating s).total_rating = s.total_rating := by
  unfold advance_after_rating
  dsimp only
  split_ifs <;> rfl

/-- The end-of-patient block can only keep the status or end the run in
`success` or `closedLowRating`; it never produces the catastrophic state. -/
theorem advance_not_catastrophic (s : Session)
    (h : s.status ≠ Outcome.closedCatastrophic) :
    (advance_after_rating s).status ≠ Outcome.closedCatastrophic := by
  unfold advance_after_rating
  dsimp only
  split_ifs <;> simp <;> exact h

/-- At the end of the run (fifth patient of a day, day counter moving past 3)
the end-of-patient block lands in `success` or `closedLowRating`, and in
`success` exactly when the overall average is at least 3. -/
theorem advance_terminal (s : Session) (h5 : 5 ≤ s.patients_treated + 1)
    (h3 : 3 < s.day + 1) :
    ((advance_after_rating s).status = Outcome.success ∨
      (advance_after_rating s).status = Outcome.closedLowRating) ∧
    ((advance_after_rating s).status = Outcome.success ↔
      3 ≤ overall_avg s.total_rating) := by
  unfold advance_after_rating
  dsimp only
  rw [if_pos h5, if_pos h3]
  by_cases havg : 3 ≤ overall_avg s.total_rating
  · rw [if_pos havg]
    simp [havg]
  · rw [if_neg havg]
    simp [havg]

/-- Summing a list whose entries are all at least `a` gives at least
`a * length`. -/
theorem sum_ge_of_forall_ge (l : List Nat) (a : Nat) (h : ∀ r ∈ l, a ≤ r) :
    a * l.length ≤ l.sum := by
  induction l with
  | nil => simp
  | cons x xs ih =>
    have hx := h x (by simp)
    have hxs := ih (fun r hr => h r (by simp [hr]))
    simp only [List.length_cons, List.sum_cons]
    rw [Nat.mul_succ]
    omega

/-- Summing a list whose entries are all at most `a` gives at most
`a * length`. -/
theorem sum_le_of_forall_le (l : List Nat) (a : Nat) (h : ∀ r ∈ l, r ≤ a) :
    l.sum ≤ a * l.length := by
  induction l with
  | nil => simp
  | cons x xs ih =>
    have hx := h x (by simp)
    have hxs := ih (fun r hr => h r (by simp [hr]))
    simp only [List.length_cons, List.sum_cons]
    rw [Nat.mul_succ]
    omega

/-- A non-empty rating list whose entries are all at least 4 averages at
least 3. -/
theorem overall_avg_ge_three (l : List Nat) (hne : l ≠ [])
    (h : ∀ r ∈ l, 4 ≤ r) : 3 ≤ overall_avg l := by
  have hlen : 0 < l.length := List.length_pos.2 hne
  have hsum : 4 * l.length ≤ l.sum := sum_ge_of_forall_ge l 4 h
  rw [overall_avg_eq_div]
  have hlq : (0 : ℚ) < (l.length : ℚ) := by exact_mod_cast hlen
  rw [le_div_iff₀ hlq]
  have h3 : 3 * l.length ≤ l.sum := by omega
  exact_mod_cast h3

/-- A non-empty rating list whose entries are all at most 2 averages
strictly below 3. -/
theorem overall_avg_lt_three (l : List Nat) (hne : l ≠ [])
    (h : ∀ r ∈ l, r ≤ 2) : ¬ 3 ≤ overall_avg l := by
  have hlen : 0 < l.length := List.length_pos.2 hne
  have hsum : l.sum ≤ 2 * l.length := sum_le_of_forall_le l 2 h
  rw [overall_avg_eq_div]
  have hlq : (0 : ℚ) < (l.length : ℚ) := by exact_mod_cast hlen
  rw [le_div_iff₀ hlq]
  intro hcon
  have h2 : 3 * l.length ≤ l.sum := by exact_mod_cast hcon
  omega

/-- With in-range randomness, `evaluate_patient` awards either 0 stars or
between 1 and 5 stars. -/
theorem evaluate_patient_stars_cases (randint : Nat → Nat → Nat)
    (hr : ∀ a b, a ≤ b → a ≤ randint a b ∧ randint a b ≤ b) (p : Patient) :
    (evaluate_patient randint p).1 = 0 ∨
      (1 ≤ (evaluate_patient randint p).1 ∧ (evaluate_patient randint p).1 ≤ 5) := by
  unfold evaluate_patient
  dsimp only
  split_ifs
  · obtain ⟨h4, h5⟩ := hr 4 5 (by omega)
    refine Or.inr ⟨?_, ?_⟩ <;> simp <;> omega
  · exact Or.inl rfl
  · obtain ⟨h4, h5⟩ := hr 4 5 (by omega)
    refine Or.inr ⟨?_, ?_⟩ <;> simp <;> omega
  · obtain ⟨h1, h3⟩ := hr 1 3 (by omega)
    refine Or.inr ⟨?_, ?_⟩ <;> simp <;> omega
  · exact Or.inr ⟨by simp, by simp⟩

/-- Stepping preserves the invariant that all recorded ratings lie in 1–5. -/
theorem run_preserves_rating_range (randint : Nat → Nat → Nat)
    (hr : ∀ a b, a ≤ b → a ≤ randint a b ∧ randint a b ≤ b)
    (es : List Event) :
    ∀ s : Session, (∀ r ∈ s.total_rating, 1 ≤ r ∧ r ≤ 5) →
      ∀ r ∈ (run randint s es).total_rating, 1 ≤ r ∧ r ≤ 5 := by
  induction es with
  | nil => exact fun s h => h
  | cons e es ih =>
    intro s h
    have hstep : ∀ r ∈ (step randint s e).total_rating, 1 ≤ r ∧ r ≤ 5 := by
      unfold step
      split_ifs with hp
      · cases e with
        | timeout =>
          intro r hrr
          rw [show (timeout_step s).total_rating = s.total_rating ++ [1] from
            advance_total_rating _] at hrr
          rcases List.mem_append.1 hrr with hmem | hmem
          · exact h r hmem
          · have : r = 1 := by simpa using hmem
            omega
        | finishCare p =>
          rcases evaluate_patient_stars_cases randint hr p with h0 | ⟨h1, h5⟩
          · intro r hrr
            unfold finish_step at hrr
            dsimp only at hrr
            rw [if_pos h0] at hrr
            exact h r hrr
          · intro r hrr
            unfold finish_step at hrr
            dsimp only at hrr
            rw [if_neg (by omega : ¬ (evaluate_patient randint p).1 = 0),
              advance_total_rating] at hrr
            rcases List.mem_append.1 hrr with hmem | hmem
            · exact h r hmem
            · have : r = (evaluate_patient randint p).1 := by simpa using hmem
              omega
      · exact h
    exact ih (step randint s e) hstep

/-- C4: when a patient times out, the session records exactly one 1-star
rating and never reaches the catastrophic clinic-closure state — the timeout
path of `game.py` (lines 221–252) appends `1` directly and never calls
`evaluate_patient`, so its closure branch is unreachable regardless of the
patient's condition. -/
theorem timeout_records_one_star_never_closure (randint : Nat → Nat → Nat)
    (s : Session) (h : s.status = Outcome.playing) :
    (step randint s Event.timeout).total_rating = s.total_rating ++ [1] ∧
    (step randint s Event.timeout).status ≠ Outcome.closedCatastrophic := by
  have hstep : step randint s Event.timeout = timeout_step s := by
    unfold step
    rw [h]
    rfl
  rw [hstep]
  refine ⟨advance_total_rating _, advance_not_catastrophic _ ?_⟩
  show s.status ≠ Outcome.closedCatastrophic
  rw [h]
  decide

/-- Witness for `timeout_records_one_star_never_closure` at the initial
session state. -/
theorem timeout_records_one_star_never_closure_witness :
    (step (fun a _ => a) Session.start Event.timeout).total_rating =
      Session.start.total_rating ++ [1] :=
  (timeout_records_one_star_never_closure (fun a _ => a) Session.start rfl).1

/-- The non-severe Flu patient treated with Tamiflu used for the concrete
end-to-end runs. -/
def flu_with_tamiflu : Patient :=
  { name := "John", condition := "Flu", personality := "Calm",
    is_angry := false, med_given := some "Tamiflu", admitted := false,
    treatment_time := 45, time_left := 45 }

/-- C5: the day-progression state machine.  The day counter increments
exactly when the per-day counter reaches 5 (resetting it to 0 while the day
stays at most 3); when the day moves past 3 the run terminates, in `success`
iff the average of the full rating history is at least 3 (in particular, a
non-empty history of ratings all ≥ 4 terminates in success and one of
ratings all ≤ 2 terminates closed); and concretely, 15 finished patients
rated 4 end in `success` while 15 timeouts (all rated 1) end in
`closedLowRating`. -/
theorem day_progression_and_final_average :
    (∀ s : Session,
      ((advance_after_rating s).day =
          if 5 ≤ s.patients_treated + 1 then s.day + 1 else s.day) ∧
      (¬ 5 ≤ s.patients_treated + 1 →
        (advance_after_rating s).patients_treated = s.patients_treated + 1 ∧
        (advance_after_rating s).day = s.day ∧
        (advance_after_rating s).status = s.status) ∧
      (5 ≤ s.patients_treated + 1 → s.day + 1 ≤ 3 →
        (advance_after_rating s).patients_treated = 0 ∧
        (advance_after_rating s).status = s.status) ∧
      (5 ≤ s.patients_treated + 1 → 3 < s.day + 1 →
        ((advance_after_rating s).status = Outcome.success ∨
          (advance_after_rating s).status = Outcome.closedLowRating) ∧
        ((advance_after_rating s).status = Outcome.success ↔
          3 ≤ overall_avg s.total_rating)) ∧
      (5 ≤ s.patients_treated + 1 → 3 < s.day + 1 → s.total_rating ≠ [] →
        ((∀ r ∈ s.total_rating, 4 ≤ r) →
          (advance_after_rating s).status = Outcome.success) ∧
        ((∀ r ∈ s.total_rating, r ≤ 2) →
          (advance_after_rating s).status = Outcome.closedLowRating))) ∧
    (run (fun a _ => a) Session.start
        (List.replicate 15 (Event.finishCare flu_with_tamiflu))).status =
      Outcome.success ∧
    (run (fun a _ => a) Session.start
        (List.replicate 15 (Event.finishCare flu_with_tamiflu))).total_rating =
      List.replicate 15 4 ∧
    (run (fun a _ => a) Session.start
        (List.replicate 15 Event.timeout)).status = Outcome.closedLowRating ∧
    (run (fun a _ => a) Session.start
        (List.replicate 15 Event.timeout)).total_rating = List.replicate 15 1 := by
  refine ⟨fun s => ⟨?_, ?_, ?_, ?_, ?_⟩, by decide, by decide, by decide, by decide⟩
  · unfold advance_after_rating
    dsimp only
    split_ifs with h1 h2 h3 <;> simp [h1]
  · intro h5
    unfold advance_after_rating
    dsimp only
    rw [if_neg h5]
    exact ⟨rfl, rfl, rfl⟩
  · intro h5 h3
    unfold advance_after_rating
    dsimp only
    rw [if_pos h5, if_neg (by omega : ¬ 3 < s.day + 1)]
    exact ⟨rfl, rfl⟩
  · exact advance_terminal s
  · intro h5 h3 hne
    constructor
    · intro hall
      exact (advance_terminal s h5 h3).2.mpr (overall_avg_ge_three _ hne hall)
    · intro hall
      rcases (advance_terminal s h5 h3).1 with hsucc | hlow
      · exact absurd ((advance_terminal s h5 h3).2.mp hsucc)
          (overall_avg_lt_three _ hne hall)
      · exact hlow

/-- Witness for `day_progression_and_final_average`: treating a third patient
of the day leaves the day and status unchanged. -/
theorem day_progression_and_final_average_witness :
    (advance_after_rating
      { day := 1, patients_treated := 2, total_rating := [4, 4],
        status := Outcome.playing }).patients_treated = 3 ∧
    (advance_after_rating
      { day := 1, patients_treated := 2, total_rating := [4, 4],
        status := Outcome.playing }).day = 1 ∧
    (advance_after_rating
      { day := 1, patients_treated := 2, total_rating := [4, 4],
        status := Outcome.playing }).status = Outcome.playing :=
  (day_progression_and_final_average.1
    { day := 1, patients_treated := 2, total_rating := [4, 4],
      status := Outcome.playing }).2.1 (by decide)

/-- C6: every rating ever appended to the history is an integer in 1–5.  The
timeout path appends exactly 1; the finish-care path appends the evaluated
stars only when they are non-zero (a 0-star evaluation ends the run in the
catastrophic state with nothing recorded); hence every entry of the history
of any run from the initial state lies in 1–5, and 0 never appears. -/
theorem rating_history_entries_in_range (randint : Nat → Nat → Nat)
    (hr : ∀ a b, a ≤ b → a ≤ randint a b ∧ randint a b ≤ b)
    (es : List Event) :
    (∀ s : Session, (timeout_step s).total_rating = s.total_rating ++ [1]) ∧
    (∀ (p : Patient) (s : Session), (evaluate_patient randint p).1 = 0 →
      (finish_step randint p s).total_rating = s.total_rating ∧
      (finish_step randint p s).status = Outcome.closedCatastrophic) ∧
    (∀ (p : Patient) (s : Session), (evaluate_patient randint p).1 ≠ 0 →
      (finish_step randint p s).total_rating =
        s.total_rating ++ [(evaluate_patient randint p).1]) ∧
    (∀ r ∈ (run randint Session.start es).total_rating, 1 ≤ r ∧ r ≤ 5) := by
  refine ⟨fun s => advance_total_rating _, ?_, ?_, ?_⟩
  · intro p s h0
    unfold finish_step
    dsimp only
    rw [if_pos h0]
    exact ⟨rfl, rfl⟩
  · intro p s h0
    unfold finish_step
    dsimp only
    rw [if_neg h0]
    exact advance_total_rating _
  · refine run_preserves_rating_range randint hr es Session.start ?_
    intro r hrr
    exact absurd hrr (List.not_mem_nil r)

/-- Witness for `rating_history_entries_in_range`: the timeout step from the
initial state records exactly the rating 1. -/
theorem rating_history_entries_in_range_witness :
    (timeout_step Session.start).total_rating =
      Session.start.total_rating ++ [1] :=
  (rating_history_entries_in_range (fun a _ => a)
    (fun a _ h => ⟨Nat.le_refl a, h⟩) []).1 Session.start

/-- C7: saving a rating history with `save_to_file` and loading the resulting
file with `load_from_file` into a fresh `ClinicMemory` reproduces the
identical sequence of integers (`memory.py` lines 54–84; `json.dump` /
`json.load` round-trip an integer array exactly, modelled at the value
level). -/
theorem save_load_roundtrip (l : List Int) :
    (ClinicMemory.start.load_from_file
      (ClinicMemory.save_to_file { all_reviews := l })).all_reviews = l := rfl

/-- C8: a missing persisted-memory file, and a file that cannot be read or
parsed as JSON, both make `load_from_file` reset the review list to the
default empty list; every branch of the source returns normally (the
`try/except` swallows the failure), so the embedding is a total function and
no error reaches the caller. -/
theorem load_missing_or_corrupt_resets (mem : ClinicMemory) :
    (mem.load_from_file FileContent.missing).all_reviews = [] ∧
    (mem.load_from_file FileContent.corrupt).all_reviews = [] := ⟨rfl, rfl⟩

end DoctorOnCall
